import Mathlib

/-!
Verification development for the Zypto-history ingestion scripts.

The JavaScript sources are shallowly embedded as Lean definitions:
* a JS number that may be `NaN`/`Infinity`/`undefined` after `Number(...)`
  coercion is modelled as `Option ℚ` (`none` = not a finite number);
* Firestore documents of the daily collection are modelled by the
  `DailyDoc` structure, with `none`/`[]` standing for absent fields;
* `Date.now()` / `serverTimestamp()` write-time markers are passed as
  explicit arguments;
* each script's read-merge-write is embedded as an explicit function
  from the previous document to the written document.
-/

namespace Zypto

/-- JS `Set.add` on an array kept in insertion order: append if absent. -/
def addUnique (l : List String) (s : String) : List String :=
  if s ∈ l then l else l ++ [s]

/-- `mean(arr)` from backfillFromUniswapV2.js: filter the finite numbers,
`undefined` when none remain, else sum divided by count. -/
def jsMean (l : List (Option ℚ)) : Option ℚ :=
  let xs := l.filterMap id
  if xs.isEmpty then none else some (xs.sum / (xs.length : ℚ))

/-- Per-provider namespace written by the Uniswap-v3 backfill
(`uniV3: { priceUSD, volumeUSD }`). -/
structure NsV3 where
  priceUSD : Option ℚ
  volumeUSD : Option ℚ
deriving DecidableEq, Repr

/-- Per-provider namespace written by the GeckoTerminal backfills
(`geckoTerminal: { pair, token, o, h, l, c, v, ts, network }`). -/
structure NsGt where
  pair : String
  token : String
  network : String
  o : Option ℚ
  h : Option ℚ
  l : Option ℚ
  c : Option ℚ
  v : Option ℚ
  ts : Option ℚ
deriving DecidableEq, Repr

/-- A document of the `zypto_prices_daily` collection.  Every field any of the
scripts reads or writes is present; `none` / `[]` model an absent field.
`updatedAt'` models the `_updatedAt` field written by the namespaced
GeckoTerminal variants, `updatedAt` the `updatedAt` field. -/
structure DailyDoc where
  date : Option String
  day : Option String
  open' : Option ℚ
  high : Option ℚ
  low : Option ℚ
  close : Option ℚ
  priceUSD : Option ℚ
  volumeUSD : Option ℚ
  cgUSD : Option ℚ
  uniV2USD : Option ℚ
  uniV3 : Option NsV3
  geckoTerminal : Option NsGt
  sources : List String
  source : Option String
  source_gt : Option Bool
  chain : Option String
  contract : Option String
  ts : Option ℚ
  firstTs : Option ℚ
  lastTs : Option ℚ
  updatedAt : Option ℚ
  updatedAt' : Option ℚ
deriving DecidableEq, Repr

/-- The `{}` a script starts from when the day's snapshot does not exist. -/
def emptyDoc : DailyDoc :=
  { date := none, day := none, open' := none, high := none, low := none
    close := none, priceUSD := none, volumeUSD := none, cgUSD := none
    uniV2USD := none, uniV3 := none, geckoTerminal := none, sources := []
    source := none, source_gt := none, chain := none, contract := none
    ts := none, firstTs := none, lastTs := none, updatedAt := none
    updatedAt' := none }

namespace UniV2

/-- `upsertDaily(db, day, updates)` from backfillFromUniswapV2.js, as the
function from the previous document (`{}` if absent) to the written one.
`uniV2USD` is `updates.uniV2USD` when a number, else `undefined`; `now`
is `Date.now()`. -/
def upsertDaily (prev : DailyDoc) (uniV2USD : Option ℚ) (now : ℚ) : DailyDoc :=
  let cg := prev.cgUSD
  let uni := uniV2USD
  let priceUSD := jsMean [cg, uni]
  let sources₁ := if cg.isSome then addUnique prev.sources "coingecko" else prev.sources
  let sources₂ := if uni.isSome then addUnique sources₁ "uniswap-v2" else sources₁
  { prev with
    uniV2USD := uni
    priceUSD := match priceUSD with
      | some m => some m
      | none => prev.priceUSD
    sources := sources₂
    updatedAt := some now }

/-- The driver's validity guard `uniV2USD && isFinite(uniV2USD)`: a finite,
non-zero number passes (JS truthiness drops `0` and `NaN`). -/
def normalizePrice (raw : Option ℚ) : Option ℚ :=
  match raw with
  | some q => if q = 0 then none else some q
  | none => none

end UniV2

/-- JS `Number(x) || null` (and the truthiness guard `x && isFinite(x)`):
a finite non-zero number passes, `0`, `NaN` and `undefined` give `null`. -/
def jsTruthyNum (x : Option ℚ) : Option ℚ :=
  match x with
  | some q => if q = 0 then none else some q
  | none => none

namespace UniV3

/-- One write of the loop in `backfill()` from the Uniswap-v3 script
(src/unnamed/part_001, first file): sets `ts`, the whole `uniV3`
namespace (`Number(row.priceUSD) || null`, `Number(row.volumeUSD) || null`)
and `updatedAt`, merging over the previous document. -/
def writeRow (prev : DailyDoc) (dateSec : ℚ) (priceUSD volumeUSD : Option ℚ)
    (now : ℚ) : DailyDoc :=
  { prev with
    ts := some (dateSec * 1000)
    uniV3 := some ⟨jsTruthyNum priceUSD, jsTruthyNum volumeUSD⟩
    updatedAt := some now }

end UniV3

namespace GT2

/-- A row of `ohlcv_list` (array style) after the `Number(...)` coercions of
`fetchCandlesDay` in src/unnamed/part_002: `none` is a missing or
unparsable entry. -/
structure Row where
  ts : Option ℚ
  o : Option ℚ
  h : Option ℚ
  l : Option ℚ
  c : Option ℚ
  v : Option ℚ
deriving DecidableEq, Repr

/-- The normalized candle shape of `fetchCandlesDay`. -/
structure Candle where
  ts : Option ℚ
  o : Option ℚ
  h : Option ℚ
  l : Option ℚ
  c : Option ℚ
  v : Option ℚ
deriving DecidableEq, Repr

/-- The `Number(v || 0)` default: an absent volume becomes `0`. -/
def volOrZero (v : Option ℚ) : Option ℚ :=
  match v with
  | some q => some q
  | none => some 0

/-- JS truthiness of the candle's `ts` in the filter `r.ts && isFinite(r.c)`:
`0`, `NaN` and `undefined` are falsy. -/
def tsTruthy (ts : Option ℚ) : Bool :=
  match ts with
  | some q => decide (q ≠ 0)
  | none => false

/-- The `map` step of `fetchCandlesDay` (array-style rows). -/
def toCandle (r : Row) : Candle :=
  { ts := r.ts, o := r.o, h := r.h, l := r.l, c := r.c, v := volOrZero r.v }

/-- The map-then-filter normalization of `fetchCandlesDay`
(src/unnamed/part_002 lines 68-84): keep a candle iff its `ts` is truthy
and its close is a finite number. -/
def fetchCandlesNormalize (rows : List Row) : List Candle :=
  (rows.map toCandle).filter (fun r => tsTruthy r.ts && r.c.isSome)

/-- One write of the `backfillDaily` loop in src/unnamed/part_002: replaces
the whole `geckoTerminal` namespace and `_updatedAt`, merging over the
previous document.  `sources` and the canonical fields are untouched. -/
def writeGt (prev : DailyDoc) (r : Candle) (pairAddr tokenAddr network : String)
    (now : ℚ) : DailyDoc :=
  { prev with
    geckoTerminal := some
      { pair := pairAddr, token := tokenAddr, network := network
        o := r.o, h := r.h, l := r.l, c := r.c, v := r.v, ts := r.ts }
    updatedAt' := some now }

end GT2

/-- Modelled from the spec: the arithmetic mean of every provider-namespace
price field present in the document (coingecko's `cgUSD`, uniswap-v2's
`uniV2USD`, uniswap-v3's `uniV3.priceUSD`, geckoterminal's close). -/
def specCanonicalPrice (d : DailyDoc) : Option ℚ :=
  jsMean [d.cgUSD, d.uniV2USD, d.uniV3.bind (·.priceUSD), d.geckoTerminal.bind (·.c)]

/-- Firestore's hard limit on writes per committed batch, quoted by the
source comments ("stay under 500 writes/batch", "max 500 per batch"). -/
def storeBatchCeiling : ℕ := 500

/-- Fuel-driven worker for `chunksOf`; the fuel is the list length, so the
recursion is structural. -/
def chunksOfFuel {α : Type} (n : ℕ) : ℕ → List α → List (List α)
  | 0, _ => []
  | fuel + 1, l =>
    if n = 0 then []
    else
      match l with
      | [] => []
      | _ => l.take n :: chunksOfFuel n fuel (l.drop n)

/-- Split a buffer into successive chunks of `n` records (last one partial),
the shape of every `slice`/counter-based batch loop in the scripts. -/
def chunksOf {α : Type} (n : ℕ) (l : List α) : List (List α) :=
  chunksOfFuel n l.length l

/-- The sequential per-chunk commit loop: chunk `i` is an independent
transaction; if the store rejects it (`fails i`), the run aborts, leaving the
records of earlier chunks durably committed.  Returns (committed, success). -/
def commitChunks (fails : ℕ → Bool) : List ℕ → ℕ → ℕ × Bool
  | [], _ => (0, true)
  | c :: rest, i =>
    if fails i then (0, false)
    else
      let r := commitChunks fails rest (i + 1)
      (c + r.1, r.2)

/-- JS `String.prototype.toLowerCase` on the ASCII addresses the scripts
compare, character by character. -/
def lowerStr (s : String) : String := String.mk (s.data.map Char.toLower)

namespace GT

/-- An HTTP response of the GeckoTerminal daily-OHLCV endpoint: the status and
the `data.attributes.ohlcv_list` the script extracts (`none` models a missing
or unparsable body, which `|| []` turns into the empty list). -/
structure HttpResp where
  status : ℕ
  ohlcvList : Option (List GT2.Row)
deriving DecidableEq, Repr

/-- `res.ok`: status in the 2xx range. -/
def httpOk (s : ℕ) : Bool := decide (200 ≤ s) && decide (s ≤ 299)

/-- The candle shape built by `fetchGT_Daily` in
src/scripts/backfill/backfillFromGeckoTerminal.js (`ts` in milliseconds). -/
structure Candle where
  ts : Option ℚ
  o : Option ℚ
  h : Option ℚ
  l : Option ℚ
  c : Option ℚ
  v : Option ℚ
deriving DecidableEq, Repr

/-- The `map` step of `fetchGT_Daily`: `Number(tsSec) * 1000` and unary `+` on
the OHLCV entries. -/
def toCandle (r : GT2.Row) : Candle :=
  { ts := r.ts.map (· * 1000), o := r.o, h := r.h, l := r.l, c := r.c, v := r.v }

/-- The map-then-filter normalization of `fetchGT_Daily` (lines 74-78): keep a
candle iff `Number.isFinite(c.ts) && Number.isFinite(c.c)`. -/
def normalizeRows (rows : List GT2.Row) : List Candle :=
  (rows.map toCandle).filter (fun c => c.ts.isSome && c.c.isSome)

/-- `fetchGT_Daily`: a 401 is the public-tier soft limit and yields
`{ candles: [], softLimited: true }`; any other non-2xx throws; a 2xx body is
normalized. -/
def fetchGT_Daily (resp : HttpResp) : Except String (List Candle × Bool) :=
  if resp.status = 401 then .ok ([], true)
  else if httpOk resp.status then .ok (normalizeRows (resp.ohlcvList.getD []), false)
  else .error "geckoterminal error"

/-- `batchSize = 450` of `upsertDaily` ("stay under 500 writes/batch"). -/
def batchSize : ℕ := 450

/-- The slices `candles.slice(i, i + batchSize)` committed by `upsertDaily`. -/
def upsertDailyChunks (candles : List Candle) : List (List Candle) :=
  chunksOf batchSize candles

/-- The written-row count `upsertDaily` returns: zero for an empty list, else
one per candle across all committed chunks. -/
def upsertDailyWritten (candles : List Candle) : ℕ :=
  if candles.isEmpty then 0
  else ((upsertDailyChunks candles).map List.length).sum

/-- The per-candle document write of `upsertDaily`: canonical OHLC fields,
`volumeUSD`, a `source_gt` marker and `updatedAt`, merged over the previous
document. -/
def writeCandle (prev : DailyDoc) (k : Candle) (now : ℚ) : DailyDoc :=
  { prev with
    close := k.c, high := k.h, low := k.l, open' := k.o
    volumeUSD := k.v, source_gt := some true, updatedAt := some now }

/-- Insertion step for the `candles.sort((a, b) => a.ts - b.ts)` call. -/
def insertByTs (c : Candle) : List Candle → List Candle
  | [] => [c]
  | d :: rest =>
    if c.ts.getD 0 ≤ d.ts.getD 0 then c :: d :: rest else d :: insertByTs c rest

/-- `candles.sort((a, b) => a.ts - b.ts)`: ascending by timestamp. -/
def sortByTs (l : List Candle) : List Candle := l.foldr insertByTs []

/-- A run outcome as the process reports it: exit 0 with a written-row count,
or exit 1. -/
inductive RunOutcome where
  | success (written : ℕ)
  | failed
deriving DecidableEq, Repr

/-- The `main` IIFE of backfillFromGeckoTerminal.js: any thrown error exits 1;
otherwise candles (when present) are sorted and upserted and the process exits
0, also when the soft limit left zero candles. -/
def main (resp : HttpResp) : RunOutcome :=
  match fetchGT_Daily resp with
  | .error _ => .failed
  | .ok (candles, _soft) =>
      .success (if candles.isEmpty then 0 else upsertDailyWritten (sortByTs candles))

end GT

namespace GTPager

/-- `fetchPage(beforeTs)` of the paging GeckoTerminal variant
(src/unnamed/part_001, second file, lines 169-186): any non-2xx response
throws immediately — there is no retry —, a 2xx yields the rows. -/
def fetchPage (resp : GT.HttpResp) : Except String (List GT2.Row) :=
  if GT.httpOk resp.status then .ok (resp.ohlcvList.getD [])
  else .error "geckoterminal error"

/-- Outcome of the paging loop with the total rows written so far. -/
inductive PagerOutcome where
  | done (total : ℕ)
  | failed (total : ℕ)
deriving DecidableEq, Repr

/-- The paging loop of the same script: each iteration consumes the next
scripted response; an empty page stops the loop, the 20000-row safety cap
stops it after writing, and a thrown fetch error reaches the catch block and
fails the run.  The response list scripts one provider response per fetch. -/
def runPager : List GT.HttpResp → ℕ → PagerOutcome
  | [], total => .done total
  | r :: rest, total =>
    match fetchPage r with
    | .error _ => .failed total
    | .ok rows =>
      if rows.isEmpty then .done total
      else if 20000 ≤ total + rows.length then .done (total + rows.length)
      else runPager rest (total + rows.length)

/-- Modelled from the spec: a pager that, on a transient error, retries the
same cursor (consuming the next scripted response as the retry) up to
`ceiling` additional attempts before failing, as §4.4 of the spec demands.
Used only to contrast with `runPager`. -/
def specRetryPager (ceiling : ℕ) : List GT.HttpResp → ℕ → ℕ → PagerOutcome
  | [], _, total => .done total
  | r :: rest, attempts, total =>
    match fetchPage r with
    | .error _ =>
      if ceiling ≤ attempts then .failed total
      else specRetryPager ceiling rest (attempts + 1) total
    | .ok rows =>
      if rows.isEmpty then .done total
      else if 20000 ≤ total + rows.length then .done (total + rows.length)
      else specRetryPager ceiling rest 0 (total + rows.length)

end GTPager

namespace Hourly

/-- A token object inside a DexScreener pair candidate. -/
structure DsToken where
  address : String
deriving DecidableEq, Repr

/-- A DexScreener pair/venue candidate, after `Number(...)` coercion of
`priceUsd`; `volumeH24` is the `volume?.h24` reading (the object fallback of
`pair.volume?.h24 || pair.volume || 0` is collapsed into it). -/
structure DsPair where
  pairAddress : Option String
  chainId : Option String
  chain : Option String
  baseToken : Option DsToken
  quoteToken : Option DsToken
  priceUsd : Option ℚ
  volumeH24 : Option ℚ
deriving DecidableEq, Repr

/-- A DexScreener response body: either a `pairs` array or a single `pair`. -/
structure DsResponse where
  pairs : Option (List DsPair)
  pair : Option DsPair
deriving DecidableEq, Repr

/-- The configured `TOKEN_ADDRESS` and `UNI_PAIR`, lowercased at load time. -/
structure Config where
  tokenAddress : String
  uniPair : String
deriving DecidableEq, Repr

/-- `Array.isArray(json?.pairs) ? json.pairs : (json?.pair ? [json.pair] : [])`. -/
def dsPairs (j : DsResponse) : List DsPair :=
  match j.pairs with
  | some l => l
  | none =>
    match j.pair with
    | some p => [p]
    | none => []

/-- Tier (a): exact configured pair-address match. -/
def isPairMatch (cfg : Config) (p : DsPair) : Bool :=
  lowerStr (p.pairAddress.getD "") == cfg.uniPair

/-- Tier (b): an ethereum candidate whose base or quote token is the
configured token. -/
def isTokenMatch (cfg : Config) (p : DsPair) : Bool :=
  (p.chainId == some "ethereum" || p.chain == some "ethereum") &&
    (lowerStr ((p.baseToken.map DsToken.address).getD "") == cfg.tokenAddress ||
      lowerStr ((p.quoteToken.map DsToken.address).getD "") == cfg.tokenAddress)

/-- `pickDexPair(json)` from zyptoIngestHourly.js (lines 27-42): empty
candidate list gives null, else first pair-address match, else first ethereum
token match, else the first candidate. -/
def pickDexPair (cfg : Config) (j : DsResponse) : Option DsPair :=
  if (dsPairs j).isEmpty then none
  else
    match (dsPairs j).find? (isPairMatch cfg) with
    | some p => some p
    | none =>
      match (dsPairs j).find? (isTokenMatch cfg) with
      | some p => some p
      | none => (dsPairs j).head?

/-- The consolidated quote the hourly ingestor stores. -/
structure Quote where
  provider : String
  priceUSD : ℚ
  volumeUSD : Option ℚ
  pairAddress : Option String
deriving DecidableEq, Repr

/-- The body of one endpoint attempt inside `pullDexScreenerQuote`
(lines 53-64): pick one candidate; no candidate, a non-finite price or a
price ≤ 0 fails the whole attempt (`continue` to the next endpoint). -/
def attemptQuote (cfg : Config) (j : DsResponse) : Option Quote :=
  match pickDexPair cfg j with
  | none => none
  | some p =>
    match p.priceUsd with
    | none => none
    | some priceUSD =>
      if priceUSD ≤ 0 then none
      else
        some { provider := "dexscreener", priceUSD := priceUSD
               volumeUSD := some (p.volumeH24.getD 0), pairAddress := p.pairAddress }

/-- `pullDexScreenerQuote()`: walk the configured fallback endpoints (each
scripted as a network/JSON result); the first successful attempt wins; if all
fail the run throws `dexscreener_failed`. -/
def pullDexScreenerQuote (cfg : Config) :
    List (Except String DsResponse) → Except String Quote
  | [] => .error "dexscreener_failed"
  | r :: rest =>
    match r with
    | .error _ => pullDexScreenerQuote cfg rest
    | .ok j =>
      match attemptQuote cfg j with
      | some q => .ok q
      | none => pullDexScreenerQuote cfg rest

/-- `Math.max(previous, incoming)` where the previous field may be absent
(`undefined` gives `NaN`, modelled as `none`). -/
def jsMax (a : Option ℚ) (b : ℚ) : Option ℚ :=
  match a with
  | some x => some (max x b)
  | none => none

/-- `Math.min(previous, incoming)` with the same absence behaviour. -/
def jsMin (a : Option ℚ) (b : ℚ) : Option ℚ :=
  match a with
  | some x => some (min x b)
  | none => none

/-- The daily-rollup half of `writeHourlyAndDaily` (lines 100-113): a missing
day document is created with `open=high=low=close=price`; an existing one gets
`high=max`, `low=min`, `close=price` and summed volume, merged in place. -/
def writeDaily (prevDay : Option DailyDoc) (q : Quote) (dayId : String)
    (now : ℚ) : DailyDoc :=
  match prevDay with
  | none =>
    { emptyDoc with
      date := some dayId
      open' := some q.priceUSD, high := some q.priceUSD
      low := some q.priceUSD, close := some q.priceUSD
      volumeUSD := some (q.volumeUSD.getD 0)
      firstTs := some now, lastTs := some now }
  | some d =>
    { d with
      high := jsMax d.high q.priceUSD
      low := jsMin d.low q.priceUSD
      close := some q.priceUSD
      volumeUSD := some (d.volumeUSD.getD 0 + q.volumeUSD.getD 0)
      lastTs := some now }

end Hourly

namespace CG

/-- The per-day value assembled from the CoinGecko `market_chart` arrays. -/
structure Val where
  priceUSD : Option ℚ
  volumeUSD : Option ℚ
deriving DecidableEq, Repr

/-- The daily collection as an association list of (doc id, document). -/
abbrev Store := List (String × DailyDoc)

/-- `collection.doc(k).get()`. -/
def lookup (st : Store) (k : String) : Option DailyDoc :=
  (st.find? (fun e => e.1 == k)).map (·.2)

/-- The payload `backfillDaily` writes for an absent day:
`{ priceUSD, volumeUSD ?? null, source: "coingecko", ts }`. -/
def payloadDoc (v : Val) (now : ℚ) : DailyDoc :=
  { emptyDoc with
    priceUSD := v.priceUSD, volumeUSD := v.volumeUSD
    source := some "coingecko", ts := some now }

/-- One merged field of a Firestore `set(..., { merge: true })`: a field
present in the payload replaces the stored one, an absent field is kept. -/
def mergeField {α : Type} (old incoming : Option α) : Option α :=
  match incoming with
  | some x => some x
  | none => old

/-- Firestore `set(..., { merge: true })` on a whole document; for the
array-valued `sources` an empty payload list models an absent field. -/
def mergeDoc (old incoming : DailyDoc) : DailyDoc :=
  { date := mergeField old.date incoming.date
    day := mergeField old.day incoming.day
    open' := mergeField old.open' incoming.open'
    high := mergeField old.high incoming.high
    low := mergeField old.low incoming.low
    close := mergeField old.close incoming.close
    priceUSD := mergeField old.priceUSD incoming.priceUSD
    volumeUSD := mergeField old.volumeUSD incoming.volumeUSD
    cgUSD := mergeField old.cgUSD incoming.cgUSD
    uniV2USD := mergeField old.uniV2USD incoming.uniV2USD
    uniV3 := mergeField old.uniV3 incoming.uniV3
    geckoTerminal := mergeField old.geckoTerminal incoming.geckoTerminal
    sources := if incoming.sources.isEmpty then old.sources else incoming.sources
    source := mergeField old.source incoming.source
    source_gt := mergeField old.source_gt incoming.source_gt
    chain := mergeField old.chain incoming.chain
    contract := mergeField old.contract incoming.contract
    ts := mergeField old.ts incoming.ts
    firstTs := mergeField old.firstTs incoming.firstTs
    lastTs := mergeField old.lastTs incoming.lastTs
    updatedAt := mergeField old.updatedAt incoming.updatedAt
    updatedAt' := mergeField old.updatedAt' incoming.updatedAt' }

/-- `batch.set(ref, payload, { merge: true })` at the store level: merge into
the document at `k` if present, else create it. -/
def setMerge (st : Store) (k : String) (d : DailyDoc) : Store :=
  if (st.find? (fun e => e.1 == k)).isSome then
    st.map (fun e => if e.1 == k then (e.1, mergeDoc e.2 d) else e)
  else st ++ [(k, d)]

/-- The writes `backfillDaily` issues: exactly one per `byDate` entry whose
day key was absent from the pre-run snapshot (`have.has(k)` skips the rest). -/
def backfillWrites (existing : List String) (byDate : List (String × Val))
    (now : ℚ) : List (String × DailyDoc) :=
  (byDate.filter (fun kv => !existing.contains kv.1)).map
    (fun kv => (kv.1, payloadDoc kv.2 now))

/-- `backfillDaily` of src/scripts/backfill/backfillFromCoinGecko.js
(lines 84-114): snapshot the existing doc ids, then batch-write only the
absent days.  The 450-chunked commits apply the same writes in order, so the
final store is their left fold. -/
def backfillDaily (st : Store) (byDate : List (String × Val)) (now : ℚ) : Store :=
  (backfillWrites (st.map (·.1)) byDate now).foldl
    (fun s kv => setMerge s kv.1 kv.2) st

end CG

namespace UniV3

/-- `BATCH_LIMIT = 500` of the Uniswap-v3 backfill loop
(src/unnamed/part_001, first file, lines 104-131): a commit fires at every
multiple of 500 ops, with a final partial commit for the remainder. -/
def BATCH_LIMIT : ℕ := 500

/-- The commit chunks the `backfill()` loop produces over the fetched rows. -/
def backfillChunks {α : Type} (rows : List α) : List (List α) :=
  chunksOf BATCH_LIMIT rows

end UniV3

end Zypto

open Zypto

theorem mem_addUnique {l : List String} {s t : String} :
    t ∈ addUnique l s ↔ t ∈ l ∨ t = s := by
  unfold addUnique
  by_cases h : s ∈ l
  · simp only [if_pos h]
    exact ⟨Or.inl, fun h' => h'.elim id (fun ht => ht ▸ h)⟩
  · simp [if_neg h]

theorem addUnique_eq_of_mem {l : List String} {s : String} (h : s ∈ l) :
    addUnique l s = l := by
  simp [addUnique, h]

theorem self_mem_addUnique (l : List String) (s : String) : s ∈ addUnique l s := by
  simp [mem_addUnique]

theorem upsertDaily_sources_mem (prev : DailyDoc) (u : ℚ) (now : ℚ) (s : String) :
    s ∈ (UniV2.upsertDaily prev (some u) now).sources ↔
      s ∈ prev.sources ∨ (prev.cgUSD.isSome ∧ s = "coingecko") ∨ s = "uniswap-v2" := by
  by_cases h : prev.cgUSD.isSome
  · simp [UniV2.upsertDaily, h, mem_addUnique]
    tauto
  · simp [UniV2.upsertDaily, h, mem_addUnique]

theorem upsertDaily_cgUSD (prev : DailyDoc) (u : Option ℚ) (now : ℚ) :
    (UniV2.upsertDaily prev u now).cgUSD = prev.cgUSD := rfl

theorem jsMean_pair_isSome (cg : Option ℚ) (u : ℚ) : (jsMean [cg, some u]).isSome := by
  cases cg <;> simp [jsMean]

/-- C1 counterexample: a day whose document holds a coingecko price of 10 and a
uniswap-v3 namespace price of 8 receives a uniswap-v2 write with price 12.
The code sets canonical `priceUSD` to `mean(cgUSD, uniV2USD) = 11`, but the
mean of every provider-namespace price present (10, 12, 8) is 10, so the
claimed "mean over all providers, for any number of providers" is false. -/
theorem c1_counterexample :
    (UniV2.upsertDaily { emptyDoc with cgUSD := some 10, uniV3 := some ⟨some 8, none⟩ }
        (some 12) 0).priceUSD = some 11 ∧
    specCanonicalPrice
      (UniV2.upsertDaily { emptyDoc with cgUSD := some 10, uniV3 := some ⟨some 8, none⟩ }
        (some 12) 0) = some 10 ∧
    (some (11 : ℚ) ≠ some (10 : ℚ)) := by
  refine ⟨?_, ?_, by decide⟩ <;>
    simp [UniV2.upsertDaily, specCanonicalPrice, jsMean, emptyDoc] <;> norm_num

/-- C1 amended: after a uniswap-v2 write, canonical `priceUSD` is the mean of
the `cgUSD` and `uniV2USD` fields only (skipping missing values): absent both,
the previous canonical price is kept; one present gives that price; both
present give their average; with coingecko 10 and uniswap-v2 12 it is 11.
Prices held in other provider namespaces are not part of the mean. -/
theorem c1_amended :
    (∀ (prev : DailyDoc) (now : ℚ), prev.cgUSD = none →
        (UniV2.upsertDaily prev none now).priceUSD = prev.priceUSD)
    ∧ (∀ (prev : DailyDoc) (now a : ℚ), prev.cgUSD = some a →
        (UniV2.upsertDaily prev none now).priceUSD = some a)
    ∧ (∀ (prev : DailyDoc) (now u : ℚ), prev.cgUSD = none →
        (UniV2.upsertDaily prev (some u) now).priceUSD = some u)
    ∧ (∀ (prev : DailyDoc) (now a u : ℚ), prev.cgUSD = some a →
        (UniV2.upsertDaily prev (some u) now).priceUSD = some ((a + u) / 2))
    ∧ (UniV2.upsertDaily { emptyDoc with cgUSD := some 10 } (some 12) 0).priceUSD
        = some 11 := by
  refine ⟨?_, ?_, ?_, ?_, ?_⟩
  · intro prev now h; simp [UniV2.upsertDaily, jsMean, h]
  · intro prev now a h; simp [UniV2.upsertDaily, jsMean, h]
  · intro prev now u h; simp [UniV2.upsertDaily, jsMean, h]
  · intro prev now a u h; simp [UniV2.upsertDaily, jsMean, h]
  · simp [UniV2.upsertDaily, jsMean, emptyDoc]; norm_num

/-- C1 witness: the two-provider case of the amended claim at coingecko 10,
uniswap-v2 12 gives (10 + 12) / 2. -/
theorem c1_witness :
    (UniV2.upsertDaily { emptyDoc with cgUSD := some (10 : ℚ) } (some 12) 5).priceUSD
      = some ((10 + 12) / 2) :=
  c1_amended.2.2.2.1 { emptyDoc with cgUSD := some (10 : ℚ) } 5 10 12 rfl

/-- C5 counterexample: the GeckoTerminal backfill writes a valid candle for a
fresh day, but the final document's `sources` stays empty — the provider name
is not added, so `sources` is not the union of contributing provider names. -/
theorem c5_counterexample :
    GT2.fetchCandlesNormalize
        [⟨some 1700000000, some 1, some 1, some 1, some 1, none⟩] =
      [⟨some 1700000000, some 1, some 1, some 1, some 1, some 0⟩] ∧
    (GT2.writeGt emptyDoc ⟨some 1700000000, some 1, some 1, some 1, some 1, some 0⟩
        "0xpair" "0xtoken" "eth" 0).sources = [] ∧
    "geckoterminal" ∉
      (GT2.writeGt emptyDoc ⟨some 1700000000, some 1, some 1, some 1, some 1, some 0⟩
        "0xpair" "0xtoken" "eth" 0).sources := by
  refine ⟨?_, ?_, ?_⟩
  · simp [GT2.fetchCandlesNormalize, GT2.toCandle, GT2.volOrZero, GT2.tsTruthy]
  · simp [GT2.writeGt, emptyDoc]
  · simp [GT2.writeGt, emptyDoc]

/-- C5 amended: only the uniswap-v2 upsert maintains `sources`: after any
non-empty sequence of uniswap-v2 writes, in any order, membership in the final
`sources` is exactly: previously present, or "coingecko" when a `cgUSD` field
is present, or "uniswap-v2".  The GeckoTerminal and Uniswap-v3 backfill writes
leave `sources` unchanged, so those providers never appear through their own
writes. -/
theorem c5_amended :
    (∀ (prev : DailyDoc) (ws : List (ℚ × ℚ)), ws ≠ [] → ∀ s : String,
        s ∈ (ws.foldl (fun d w => UniV2.upsertDaily d (some w.1) w.2) prev).sources ↔
          (s ∈ prev.sources ∨ (prev.cgUSD.isSome ∧ s = "coingecko") ∨ s = "uniswap-v2"))
    ∧ (∀ (prev : DailyDoc) (r : GT2.Candle) (p t n : String) (now : ℚ),
        (GT2.writeGt prev r p t n now).sources = prev.sources)
    ∧ (∀ (prev : DailyDoc) (d : ℚ) (pr vo : Option ℚ) (now : ℚ),
        (UniV3.writeRow prev d pr vo now).sources = prev.sources) := by
  refine ⟨?_, fun prev r p t n now => rfl, fun prev d pr vo now => rfl⟩
  intro prev ws
  induction ws generalizing prev with
  | nil => intro h; exact absurd rfl h
  | cons w rest ih =>
    intro _ s
    cases rest with
    | nil => simpa using upsertDaily_sources_mem prev w.1 w.2 s
    | cons w' rest' =>
      have h2 := ih (UniV2.upsertDaily prev (some w.1) w.2) (by simp) s
      simp only [List.foldl_cons] at h2 ⊢
      rw [h2, upsertDaily_sources_mem, upsertDaily_cgUSD]
      tauto

/-- C5 witness: one uniswap-v2 write on a fresh day puts "uniswap-v2" into
`sources`. -/
theorem c5_witness :
    "uniswap-v2" ∈ (([((10 : ℚ), (0 : ℚ))]).foldl
      (fun d w => UniV2.upsertDaily d (some w.1) w.2) emptyDoc).sources :=
  (c5_amended.1 emptyDoc [((10 : ℚ), (0 : ℚ))] (by simp) "uniswap-v2").mpr
    (Or.inr (Or.inr rfl))

/-- C8: the per-provider backfill reconcile is idempotent: re-applying the same
valid uniswap-v2 price (or the same GeckoTerminal candle) to the result of a
first application yields exactly the document a single application at the
final write time produces. -/
theorem c8_idempotent :
    (∀ (prev : DailyDoc) (raw : Option ℚ) (u t₁ t₂ : ℚ),
        UniV2.normalizePrice raw = some u →
        UniV2.upsertDaily (UniV2.upsertDaily prev (some u) t₁) (some u) t₂ =
          UniV2.upsertDaily prev (some u) t₂)
    ∧ (∀ (prev : DailyDoc) (r : GT2.Candle) (p t n : String) (t₁ t₂ : ℚ),
        GT2.writeGt (GT2.writeGt prev r p t n t₁) r p t n t₂ =
          GT2.writeGt prev r p t n t₂) := by
  constructor
  · intro prev raw u t₁ t₂ _
    obtain ⟨m, hm⟩ := Option.isSome_iff_exists.mp (jsMean_pair_isSome prev.cgUSD u)
    by_cases hcg : prev.cgUSD.isSome
    · simp [UniV2.upsertDaily, hm, hcg,
        addUnique_eq_of_mem (self_mem_addUnique _ "uniswap-v2"),
        addUnique_eq_of_mem ((mem_addUnique).mpr
          (Or.inl (self_mem_addUnique prev.sources "coingecko")))]
    · simp [UniV2.upsertDaily, hm, hcg,
        addUnique_eq_of_mem (self_mem_addUnique _ "uniswap-v2")]
  · intro prev r p t n t₁ t₂; rfl

/-- C8 witness: replaying a uniswap-v2 price of 12 over its own result equals a
single application. -/
theorem c8_witness :
    UniV2.normalizePrice (some 12) = some 12 ∧
    UniV2.upsertDaily (UniV2.upsertDaily emptyDoc (some 12) 1) (some 12) 2 =
      UniV2.upsertDaily emptyDoc (some 12) 2 :=
  ⟨by norm_num [UniV2.normalizePrice],
   c8_idempotent.1 emptyDoc (some 12) 12 1 2 (by norm_num [UniV2.normalizePrice])⟩

/-- C3: an HTTP 401 from GeckoTerminal is treated as the soft limit: the fetch
reports done with zero candles and `softLimited = true` instead of an error,
and a run whose only page hits it succeeds with zero records written. -/
theorem c3_soft_limit :
    ∀ body : Option (List GT2.Row),
      GT.fetchGT_Daily ⟨401, body⟩ = .ok ([], true) ∧
      GT.main ⟨401, body⟩ = .success 0 := by
  intro body
  exact ⟨rfl, rfl⟩

/-- C4 counterexample: a transient 429 on the first page makes the paging run
fail immediately, although the scripted provider would have served the same
cursor successfully on a retry; the spec-modelled retrying pager (ceiling 5)
completes the same script with one row.  No retry, backoff or attempt ceiling
exists in the code. -/
theorem c4_counterexample :
    GTPager.runPager
        [⟨429, none⟩,
         ⟨200, some [⟨some 1, some 1, some 1, some 1, some 1, some 1⟩]⟩,
         ⟨200, some []⟩] 0 = .failed 0 ∧
    GTPager.specRetryPager 5
        [⟨429, none⟩,
         ⟨200, some [⟨some 1, some 1, some 1, some 1, some 1, some 1⟩]⟩,
         ⟨200, some []⟩] 0 0 = .done 1 ∧
    GTPager.PagerOutcome.failed 0 ≠ GTPager.PagerOutcome.done 1 := by
  refine ⟨rfl, ?_, by decide⟩
  decide

/-- C4 amended: a transient provider error (any non-2xx status, e.g. a 429
rate limit or a 5xx) during paging is never retried: `fetchPage` throws on the
first attempt and the run transitions to failed at once; likewise the
single-shot GeckoTerminal fetch errors for any non-401, non-2xx status and its
run fails. -/
theorem c4_amended :
    (∀ (r : GT.HttpResp) (rest : List GT.HttpResp) (total : ℕ),
        GT.httpOk r.status = false →
        GTPager.runPager (r :: rest) total = .failed total)
    ∧ (∀ resp : GT.HttpResp, resp.status ≠ 401 → GT.httpOk resp.status = false →
        GT.fetchGT_Daily resp = .error "geckoterminal error" ∧
          GT.main resp = .failed) := by
  constructor
  · intro r rest total h
    simp [GTPager.runPager, GTPager.fetchPage, h]
  · intro resp h1 h2
    have hf : GT.fetchGT_Daily resp = .error "geckoterminal error" := by
      simp [GT.fetchGT_Daily, h1, h2]
    exact ⟨hf, by simp [GT.main, hf]⟩

/-- C4 witness: a 500 on the first page fails a pager run with nothing
written, and fails the single-shot fetch. -/
theorem c4_witness :
    GT.httpOk 500 = false ∧
    GTPager.runPager [⟨500, none⟩] 3 = .failed 3 ∧
    GT.fetchGT_Daily ⟨500, none⟩ = .error "geckoterminal error" :=
  ⟨by decide, c4_amended.1 ⟨500, none⟩ [] 3 (by decide),
    (c4_amended.2 ⟨500, none⟩ (by decide) (by decide)).1⟩

/-- C6 counterexample: a candle with a parsable timestamp and a finite but
negative close (-1) passes both normalizations and is counted by the write
step — non-positive prices are not rejected, contradicting the claim. -/
theorem c6_counterexample :
    GT.normalizeRows [⟨some 1700000000, some 1, some 1, some 1, some (-1), some 0⟩] =
      [⟨some 1700000000000, some 1, some 1, some 1, some (-1), some 0⟩] ∧
    ((-1 : ℚ) < 0) ∧
    GT.upsertDailyWritten
      (GT.normalizeRows [⟨some 1700000000, some 1, some 1, some 1, some (-1), some 0⟩]) = 1 ∧
    GT2.fetchCandlesNormalize
        [⟨some 1700000000, some 1, some 1, some 1, some (-1), none⟩] =
      [⟨some 1700000000, some 1, some 1, some 1, some (-1), some 0⟩] := by
  refine ⟨?_, by norm_num, ?_, ?_⟩
  · simp [GT.normalizeRows, GT.toCandle]
    norm_num
  · decide
  · simp [GT2.fetchCandlesNormalize, GT2.toCandle, GT2.volOrZero, GT2.tsTruthy]

/-- C6 amended: both normalizations keep exactly the candles whose close is a
finite number and whose timestamp is finite (and, in the part_002 variant,
non-zero): rejection never looks at the sign of the price, so finite
non-positive prices pass through to the write step. -/
theorem c6_amended :
    (∀ rows : List GT2.Row,
        GT.normalizeRows rows =
          (rows.filter (fun r => r.ts.isSome && r.c.isSome)).map GT.toCandle)
    ∧ (∀ rows : List GT2.Row,
        GT2.fetchCandlesNormalize rows =
          (rows.filter (fun r => GT2.tsTruthy r.ts && r.c.isSome)).map GT2.toCandle) := by
  constructor
  · intro rows
    induction rows with
    | nil => rfl
    | cons r rest ih =>
      unfold GT.normalizeRows at ih ⊢
      simp only [List.map_cons, List.filter_cons]
      cases hts : r.ts <;> cases hc : r.c <;>
        simp [GT.toCandle, hts, hc, ih]
  · intro rows
    induction rows with
    | nil => rfl
    | cons r rest ih =>
      unfold GT2.fetchCandlesNormalize at ih ⊢
      simp only [List.map_cons, List.filter_cons]
      by_cases ht : GT2.tsTruthy r.ts <;> cases hc : r.c <;>
        simp [GT2.toCandle, ht, hc, ih]

theorem chunksOfFuel_length_sum {α : Type} (n : ℕ) (hn : 0 < n) :
    ∀ (fuel : ℕ) (l : List α), l.length ≤ fuel →
      ((chunksOfFuel n fuel l).map List.length).sum = l.length := by
  intro fuel
  induction fuel with
  | zero =>
    intro l hl
    have hnil : l = [] := List.eq_nil_of_length_eq_zero (Nat.le_zero.mp hl)
    simp [hnil, chunksOfFuel]
  | succ f ih =>
    intro l hl
    cases l with
    | nil => simp [chunksOfFuel]
    | cons a as =>
      have hn' : ¬ n = 0 := Nat.pos_iff_ne_zero.mp hn
      simp only [chunksOfFuel, if_neg hn', List.map_cons, List.sum_cons]
      rw [ih ((a :: as).drop n) (by simp only [List.length_drop]; omega)]
      simp only [List.length_take, List.length_drop, List.length_cons]
      omega

theorem chunksOf_length_sum {α : Type} (n : ℕ) (hn : 0 < n) (l : List α) :
    ((chunksOf n l).map List.length).sum = l.length :=
  chunksOfFuel_length_sum n hn l.length l (Nat.le_refl _)

set_option maxRecDepth 40000 in
/-- C7 counterexample: the Uniswap-v3 backfill commits in chunks of exactly
`BATCH_LIMIT = 500` writes — equal to the store's 500-writes-per-batch hard
ceiling, not strictly below it: 600 buffered rows flush as chunks of
500 and 100. -/
theorem c7_counterexample :
    UniV3.BATCH_LIMIT = storeBatchCeiling ∧
    ¬ (UniV3.BATCH_LIMIT < storeBatchCeiling) ∧
    (UniV3.backfillChunks (List.replicate 600 (0 : ℕ))).map List.length
      = [500, 100] := by
  refine ⟨rfl, by decide, ?_⟩
  decide

set_option maxRecDepth 40000 in
/-- C7 amended: the GeckoTerminal daily path flushes at a threshold of 450,
strictly below the 500-writes ceiling: 1250 buffered candles flush as chunks
of 450, 450, 350; a store failure on the second chunk leaves exactly the 450
records of the first chunk committed; and the chunking (final partial flush
included) accounts for every buffered record.  The Uniswap-v3 variant instead
flushes in chunks of exactly 500, equal to the ceiling. -/
theorem c7_amended :
    GT.batchSize < storeBatchCeiling ∧
    (GT.upsertDailyChunks (List.replicate 1250
        ⟨none, none, none, none, none, none⟩)).map List.length = [450, 450, 350] ∧
    commitChunks (fun i => i == 1)
      ((GT.upsertDailyChunks (List.replicate 1250
        ⟨none, none, none, none, none, none⟩)).map List.length) 0 = (450, false) ∧
    (∀ candles : List GT.Candle, GT.upsertDailyWritten candles = candles.length) := by
  refine ⟨by decide, by decide, by decide, ?_⟩
  intro candles
  unfold GT.upsertDailyWritten GT.upsertDailyChunks
  by_cases h : candles.isEmpty
  · rw [if_pos h]
    simp [List.isEmpty_iff.mp h]
  · rw [if_neg h]
    exact chunksOf_length_sum GT.batchSize (by decide) candles

/-- C9: the hourly daily-rollup seeds a brand-new day with
`open = high = low = close = incoming price`; for an existing day whose
document carries `high` and `low`, the update takes the max/min of the
previous value and the incoming price (and sets `close` to the incoming
price). -/
theorem c9_daily_rollup :
    (∀ (q : Hourly.Quote) (dayId : String) (now : ℚ),
        (Hourly.writeDaily none q dayId now).open' = some q.priceUSD ∧
        (Hourly.writeDaily none q dayId now).high = some q.priceUSD ∧
        (Hourly.writeDaily none q dayId now).low = some q.priceUSD ∧
        (Hourly.writeDaily none q dayId now).close = some q.priceUSD)
    ∧ (∀ (d : DailyDoc) (q : Hourly.Quote) (dayId : String) (now : ℚ) (hv lv : ℚ),
        d.high = some hv → d.low = some lv →
        (Hourly.writeDaily (some d) q dayId now).high = some (max hv q.priceUSD) ∧
        (Hourly.writeDaily (some d) q dayId now).low = some (min lv q.priceUSD) ∧
        (Hourly.writeDaily (some d) q dayId now).close = some q.priceUSD) := by
  constructor
  · intro q dayId now
    exact ⟨rfl, rfl, rfl, rfl⟩
  · intro d q dayId now hv lv h1 h2
    refine ⟨?_, ?_, rfl⟩ <;> simp [Hourly.writeDaily, Hourly.jsMax, Hourly.jsMin, h1, h2]

/-- C9 witness: a day seeded at price 100, updated at 150 then at 50, carries
high 150 / low 100 after the first update and high 150 / low 50 after the
second. -/
theorem c9_witness :
    (Hourly.writeDaily (some (Hourly.writeDaily none
        ⟨"dexscreener", 100, some 0, none⟩ "2025-01-01" 0))
      ⟨"dexscreener", 150, some 0, none⟩ "2025-01-01" 1).high = some 150 ∧
    (Hourly.writeDaily (some (Hourly.writeDaily none
        ⟨"dexscreener", 100, some 0, none⟩ "2025-01-01" 0))
      ⟨"dexscreener", 150, some 0, none⟩ "2025-01-01" 1).low = some 100 ∧
    (Hourly.writeDaily (some (Hourly.writeDaily (some (Hourly.writeDaily none
        ⟨"dexscreener", 100, some 0, none⟩ "2025-01-01" 0))
      ⟨"dexscreener", 150, some 0, none⟩ "2025-01-01" 1))
      ⟨"dexscreener", 50, some 0, none⟩ "2025-01-01" 2).high = some 150 ∧
    (Hourly.writeDaily (some (Hourly.writeDaily (some (Hourly.writeDaily none
        ⟨"dexscreener", 100, some 0, none⟩ "2025-01-01" 0))
      ⟨"dexscreener", 150, some 0, none⟩ "2025-01-01" 1))
      ⟨"dexscreener", 50, some 0, none⟩ "2025-01-01" 2).low = some 50 := by
  have h1 := (c9_daily_rollup.1 ⟨"dexscreener", 100, some 0, none⟩ "2025-01-01" 0)
  have h2 := c9_daily_rollup.2
    (Hourly.writeDaily none ⟨"dexscreener", 100, some 0, none⟩ "2025-01-01" 0)
    ⟨"dexscreener", 150, some 0, none⟩ "2025-01-01" 1 100 100 h1.2.1 h1.2.2.1
  have h3 := c9_daily_rollup.2
    (Hourly.writeDaily (some (Hourly.writeDaily none
        ⟨"dexscreener", 100, some 0, none⟩ "2025-01-01" 0))
      ⟨"dexscreener", 150, some 0, none⟩ "2025-01-01" 1)
    ⟨"dexscreener", 50, some 0, none⟩ "2025-01-01" 2 (max 100 150) (min 100 150)
    h2.1 h2.2.1
  refine ⟨?_, ?_, ?_, ?_⟩
  · rw [h2.1]; norm_num
  · rw [h2.2.1]; norm_num
  · rw [h3.1]; norm_num
  · rw [h3.2.1]; norm_num

/-- C2 counterexample: with configured pair Y, a response holding candidate X
(price 5) and candidate Y (price -1) selects Y by tier (a); its invalid price
then fails the whole endpoint attempt — `attemptQuote` yields nothing and a
run over this single endpoint throws `dexscreener_failed` — instead of
falling through to tier (b)/(c), although candidate X with a valid price sat
in the same response. -/
theorem c2_counterexample :
    Hourly.pickDexPair ⟨"0xtok", "0xbbb"⟩
        ⟨some [⟨some "0xaaa", none, none, none, none, some 5, none⟩,
               ⟨some "0xbbb", none, none, none, none, some (-1), none⟩], none⟩ =
      some ⟨some "0xbbb", none, none, none, none, some (-1), none⟩ ∧
    Hourly.attemptQuote ⟨"0xtok", "0xbbb"⟩
        ⟨some [⟨some "0xaaa", none, none, none, none, some 5, none⟩,
               ⟨some "0xbbb", none, none, none, none, some (-1), none⟩], none⟩ = none ∧
    Hourly.pullDexScreenerQuote ⟨"0xtok", "0xbbb"⟩
        [Except.ok ⟨some [⟨some "0xaaa", none, none, none, none, some 5, none⟩,
               ⟨some "0xbbb", none, none, none, none, some (-1), none⟩], none⟩] =
      .error "dexscreener_failed" ∧
    (⟨some "0xaaa", none, none, none, none, some 5, none⟩ : Hourly.DsPair) ∈
      Hourly.dsPairs ⟨some [⟨some "0xaaa", none, none, none, none, some 5, none⟩,
               ⟨some "0xbbb", none, none, none, none, some (-1), none⟩], none⟩ ∧
    ((0 : ℚ) < 5) := by
  refine ⟨by rfl, by rfl, by rfl, by decide, by norm_num⟩

/-- C2 amended: `pickDexPair` selects exactly one candidate out of the
response by the ordered precedence (a) first pair-address match, (b) first
ethereum candidate holding the configured token, (c) the first candidate; a
selected candidate whose price is non-finite or ≤ 0 makes the whole endpoint
attempt yield nothing (the selector does not fall back to a lower tier), and
when every configured fallback endpoint's attempt fails the run fails with
`dexscreener_failed`. -/
theorem c2_amended :
    (∀ (cfg : Hourly.Config) (j : Hourly.DsResponse) (p : Hourly.DsPair),
        Hourly.pickDexPair cfg j = some p → p ∈ Hourly.dsPairs j)
    ∧ (∀ (cfg : Hourly.Config) (j : Hourly.DsResponse) (p : Hourly.DsPair),
        (Hourly.dsPairs j).find? (Hourly.isPairMatch cfg) = some p →
        Hourly.pickDexPair cfg j = some p)
    ∧ (∀ (cfg : Hourly.Config) (j : Hourly.DsResponse) (p : Hourly.DsPair),
        (Hourly.dsPairs j).find? (Hourly.isPairMatch cfg) = none →
        (Hourly.dsPairs j).find? (Hourly.isTokenMatch cfg) = some p →
        Hourly.pickDexPair cfg j = some p)
    ∧ (∀ (cfg : Hourly.Config) (j : Hourly.DsResponse),
        (Hourly.dsPairs j).find? (Hourly.isPairMatch cfg) = none →
        (Hourly.dsPairs j).find? (Hourly.isTokenMatch cfg) = none →
        Hourly.pickDexPair cfg j = (Hourly.dsPairs j).head?)
    ∧ (∀ (cfg : Hourly.Config) (j : Hourly.DsResponse) (p : Hourly.DsPair),
        Hourly.pickDexPair cfg j = some p →
        (∀ q : ℚ, p.priceUsd = some q → q ≤ 0) →
        Hourly.attemptQuote cfg j = none)
    ∧ (∀ (cfg : Hourly.Config) (results : List (Except String Hourly.DsResponse)),
        (∀ j : Hourly.DsResponse, Except.ok j ∈ results →
          Hourly.attemptQuote cfg j = none) →
        Hourly.pullDexScreenerQuote cfg results = .error "dexscreener_failed") := by
  refine ⟨?_, ?_, ?_, ?_, ?_, ?_⟩
  · intro cfg j p hp
    unfold Hourly.pickDexPair at hp
    by_cases he : (Hourly.dsPairs j).isEmpty
    · rw [if_pos he] at hp; cases hp
    · rw [if_neg he] at hp
      cases h1 : (Hourly.dsPairs j).find? (Hourly.isPairMatch cfg) with
      | some q => rw [h1] at hp; cases hp; exact List.mem_of_find?_eq_some h1
      | none =>
        rw [h1] at hp
        cases h2 : (Hourly.dsPairs j).find? (Hourly.isTokenMatch cfg) with
        | some q => rw [h2] at hp; cases hp; exact List.mem_of_find?_eq_some h2
        | none =>
          rw [h2] at hp
          exact List.mem_of_mem_head? hp
  · intro cfg j p h
    have hne : ¬ (Hourly.dsPairs j).isEmpty := by
      cases hl : Hourly.dsPairs j with
      | nil => rw [hl] at h; simp at h
      | cons a as => simp [hl]
    unfold Hourly.pickDexPair
    rw [if_neg hne, h]
  · intro cfg j p h1 h2
    have hne : ¬ (Hourly.dsPairs j).isEmpty := by
      cases hl : Hourly.dsPairs j with
      | nil => rw [hl] at h2; simp at h2
      | cons a as => simp [hl]
    unfold Hourly.pickDexPair
    rw [if_neg hne, h1, h2]
  · intro cfg j h1 h2
    unfold Hourly.pickDexPair
    by_cases he : (Hourly.dsPairs j).isEmpty
    · have hnil : Hourly.dsPairs j = [] := by simpa using he
      rw [if_pos he, hnil]
      rfl
    · rw [if_neg he, h1, h2]
  · intro cfg j p hp hnp
    unfold Hourly.attemptQuote
    rw [hp]
    cases hq : p.priceUsd with
    | none => simp [hq]
    | some q =>
      have hle : q ≤ 0 := hnp q hq
      simp [hq, hle]
  · intro cfg results
    induction results with
    | nil => intro _; rfl
    | cons r rest ih =>
      intro h
      cases r with
      | error e =>
        show Hourly.pullDexScreenerQuote cfg rest = _
        exact ih (fun j hj => h j (List.mem_cons_of_mem _ hj))
      | ok j =>
        have hj := h j (List.mem_cons_self _ _)
        simp only [Hourly.pullDexScreenerQuote, hj]
        exact ih (fun j' hj' => h j' (List.mem_cons_of_mem _ hj'))

/-- C2 witness: tier (a) picks the configured pair Y out of two candidates,
and an endpoint list on which every attempt failed ends in
`dexscreener_failed`. -/
theorem c2_witness :
    Hourly.pickDexPair ⟨"0xtok", "0xbbb"⟩
        ⟨some [⟨some "0xaaa", none, none, none, none, some 5, none⟩,
               ⟨some "0xbbb", none, none, none, none, some 3, none⟩], none⟩ =
      some ⟨some "0xbbb", none, none, none, none, some 3, none⟩ ∧
    Hourly.pullDexScreenerQuote ⟨"0xtok", "0xbbb"⟩ [] = .error "dexscreener_failed" := by
  constructor
  · exact c2_amended.2.1 ⟨"0xtok", "0xbbb"⟩ _ _ (by rfl)
  · exact c2_amended.2.2.2.2.2 ⟨"0xtok", "0xbbb"⟩ [] (by intro j hj; cases hj)

theorem lookup_cons (e : String × DailyDoc) (rest : CG.Store) (k : String) :
    CG.lookup (e :: rest) k = if e.1 == k then some e.2 else CG.lookup rest k := by
  unfold CG.lookup
  cases he : e.1 == k <;> simp [List.find?_cons, he]

theorem lookup_map_mergeAt (st : CG.Store) (k k' : String) (d : DailyDoc)
    (h : k' ≠ k) :
    CG.lookup (st.map (fun e => if e.1 == k' then (e.1, CG.mergeDoc e.2 d) else e)) k
      = CG.lookup st k := by
  induction st with
  | nil => rfl
  | cons e rest ih =>
    rw [List.map_cons]
    have hkey : ((if e.1 == k' then (e.1, CG.mergeDoc e.2 d) else e)).1 = e.1 := by
      split <;> rfl
    rw [lookup_cons, lookup_cons, hkey, ih]
    by_cases hek : e.1 = k
    · have hke' : ¬ (e.1 == k') = true := by
        simp only [beq_iff_eq]
        intro hc
        exact h (by rw [← hc, hek])
      simp [hek, hke', Ne.symm h]
    · simp [hek]

theorem lookup_append_single_ne (st : CG.Store) (k k' : String) (d : DailyDoc)
    (h : k' ≠ k) :
    CG.lookup (st ++ [(k', d)]) k = CG.lookup st k := by
  induction st with
  | nil =>
    show CG.lookup [(k', d)] k = CG.lookup [] k
    rw [lookup_cons]
    simp [h]
  | cons e rest ih =>
    rw [List.cons_append, lookup_cons, lookup_cons, ih]

theorem lookup_setMerge_ne (st : CG.Store) (k k' : String) (d : DailyDoc)
    (h : k' ≠ k) : CG.lookup (CG.setMerge st k' d) k = CG.lookup st k := by
  unfold CG.setMerge
  split
  · exact lookup_map_mergeAt st k k' d h
  · exact lookup_append_single_ne st k k' d h

/-- C10: the CoinGecko backfill never touches a day that already exists in
the store at the start of the run: it writes only day keys absent from the
pre-run snapshot, so the record of every pre-existing day is unchanged after
the run. -/
theorem c10_skip_existing :
    ∀ (st : CG.Store) (byDate : List (String × CG.Val)) (now : ℚ) (k : String),
      k ∈ st.map (fun e => e.1) →
      CG.lookup (CG.backfillDaily st byDate now) k = CG.lookup st k := by
  intro st byDate now k hk
  unfold CG.backfillDaily
  have hall : ∀ kv ∈ CG.backfillWrites (st.map (fun e => e.1)) byDate now,
      kv.1 ≠ k := by
    intro kv hkv hek
    unfold CG.backfillWrites at hkv
    simp only [List.mem_map, List.mem_filter] at hkv
    obtain ⟨a, ⟨_, hnc⟩, hkv⟩ := hkv
    apply_fun Prod.fst at hkv
    simp only at hkv
    rw [← hkv] at hek
    rw [hek] at hnc
    simp [hk] at hnc
  clear hk
  revert hall
  generalize CG.backfillWrites (st.map (fun e => e.1)) byDate now = ws
  induction ws generalizing st with
  | nil => intro _; rfl
  | cons w rest ih =>
    intro hall
    simp only [List.foldl_cons]
    rw [ih (CG.setMerge st w.1 w.2) (fun kv hkv => hall kv (List.mem_cons_of_mem _ hkv))]
    exact lookup_setMerge_ne st k w.1 w.2 (hall w (List.mem_cons_self _ _))

/-- C10 witness: with day 2024-01-01 already stored, a backfill carrying both
that day and a new one leaves the stored record's lookup unchanged. -/
theorem c10_witness :
    CG.lookup (CG.backfillDaily [("2024-01-01", emptyDoc)]
        [("2024-01-01", ⟨some 1, none⟩), ("2024-01-02", ⟨some 2, none⟩)] 0)
      "2024-01-01" = CG.lookup [("2024-01-01", emptyDoc)] "2024-01-01" :=
  c10_skip_existing [("2024-01-01", emptyDoc)]
    [("2024-01-01", ⟨some 1, none⟩), ("2024-01-02", ⟨some 2, none⟩)] 0
    "2024-01-01" (by simp)
